import Mathlib

/-!
Shallow embedding of the event-stream connection engine of
`homebridge-dahua-alerts` (file `src/dahua.ts`, class `DahuaEvents`).

JavaScript strings are modelled as Lean `String`s (the inputs of interest
are ASCII, so UTF-16 vs UTF-8 distinctions do not arise).  JavaScript
library primitives used by the source (`String.prototype.split`,
`String.prototype.substr`, `String.prototype.includes`, `Number(...)`,
`String.prototype.slice(-8)`, the regex split on comma with surrounding
whitespace) are embedded as structurally recursive functions so every
definition evaluates inside the kernel.  Thrown-and-caught exceptions are
modelled with `Except`, keeping the values of the already-assigned local
variables at the throw point, exactly as the mutable locals of the source
survive a `catch`.
-/

namespace Dahua

/-- JS number value as far as this program observes it: an integer or NaN.
`Number(...)` of the strings this engine handles yields either an integer
or NaN; fractional/exponent/hex forms do not occur in the event format and
are mapped to `nan` as well (noted at `jsNumber`). -/
inductive JSNumber where
  | int (n : Int)
  | nan
deriving DecidableEq, Repr

/-- Split a character list at every occurrence of `sep`, the semantics of
JS `String.prototype.split` with a one-character separator: the result is
never empty, and separators at the ends produce empty fragments. -/
def splitCharList (sep : Char) : List Char → List (List Char)
  | [] => [[]]
  | c :: cs =>
    if c = sep then [] :: splitCharList sep cs
    else
      match splitCharList sep cs with
      | [] => [[c]]
      | t :: ts => (c :: t) :: ts

/-- JS `s.split(sep)` for a one-character separator. -/
def jsSplit (sep : Char) (s : String) : List String :=
  (splitCharList sep s.data).map String.mk

/-- JS `s.includes(c)` for a one-character needle. -/
def jsIncludes (c : Char) (s : String) : Bool :=
  s.data.contains c

/-- JS `s.substr(n)` for a non-negative `n`: drop the first `n`
characters; beyond the length the result is empty. -/
def jsSubstr (s : String) (n : Nat) : String :=
  String.mk (s.data.drop n)

/-- The whitespace class JS trims in `Number(...)` and matches in a regex:
space, tab, line feed, carriage return, vertical tab, form feed. -/
def isJsSpace (c : Char) : Bool :=
  c = ' ' || c = '\t' || c = '\n' || c = '\r' || c = '\x0b' || c = '\x0c'

/-- Drop the leading JS-whitespace run of a character list. -/
def dropJsSpace : List Char → List Char
  | [] => []
  | c :: cs => if isJsSpace c then dropJsSpace cs else c :: cs

/-- All characters are decimal digits. -/
def allDigits (l : List Char) : Bool :=
  l.all Char.isDigit

/-- Value of a non-empty decimal digit list. -/
def digitsVal (l : List Char) : Int :=
  l.foldl (fun a c => a * 10 + (Int.ofNat (c.toNat - '0'.toNat))) 0

/-- JS `Number(s)` restricted to the integer fragment the engine can
meet: whitespace is trimmed, the empty string is `0`, an optional sign
followed by decimal digits is that integer, and anything else is NaN.
(Fractional, exponent and radix-prefixed forms, which cannot appear in
an `index=<n>` field of the Dahua event format, are also mapped to
`nan`.) -/
def jsNumber (s : String) : JSNumber :=
  let t := (dropJsSpace s.data.reverse).reverse
  let t := dropJsSpace t
  match t with
  | [] => .int 0
  | '-' :: ds => if ds ≠ [] ∧ allDigits ds then .int (-(digitsVal ds)) else .nan
  | '+' :: ds => if ds ≠ [] ∧ allDigits ds then .int (digitsVal ds) else .nan
  | ds => if allDigits ds then .int (digitsVal ds) else .nan

/-- JS `s.slice(-8)`: the last eight characters (the whole string when it
is shorter). -/
def jsSliceLast8 (s : String) : String :=
  String.mk (s.data.drop (s.data.length - 8))

/-- JS `Array.from(set).join(",")` over the watched event codes. -/
def joinComma : List String → String
  | [] => ""
  | [s] => s
  | s :: rest => s ++ "," ++ joinComma rest

/-- `s.replace(/"/g, '')`: remove every double-quote character. -/
def stripQuotes (s : String) : String :=
  String.mk (s.data.filter (fun c => c ≠ '\"'))

/-! ## Event Record Parser (`parseEventData`, dahua.ts lines 171-208) -/

/-- The record returned by `parseEventData`: mutable locals `action`,
`index`, `eventType` of the source, initialised to the sentinel values
`""`, `-999`, `""`. -/
structure ParsedEvent where
  action : String
  index : JSNumber
  eventType : String
deriving DecidableEq, Repr

/-- The initial (sentinel) record: `action=""`, `index=-999`,
`eventType=""`. -/
def sentinelEvent : ParsedEvent :=
  { action := "", index := .int (-999), eventType := "" }

/-- One iteration of the `forEach` body of `parseEventData`: if the line
contains `;` it is split on `;`, and the three locals are assigned in
source order (`eventType` from `alarm[0].substr(5)`, `action` from
`alarm[1].substr(7)`, `index` from `Number(alarm[2].substr(6))`).
Accessing a missing `alarm[i]` throws (`undefined.substr`), modelled by
`Except.error` carrying the locals as assigned so far. -/
def processLine (st : ParsedEvent) (line : String) : Except ParsedEvent ParsedEvent :=
  if jsIncludes ';' line then
    let alarm := jsSplit ';' line
    match alarm.get? 0 with
    | none => .error st
    | some a0 =>
      let st := { st with eventType := jsSubstr a0 5 }
      match alarm.get? 1 with
      | none => .error st
      | some a1 =>
        let st := { st with action := jsSubstr a1 7 }
        match alarm.get? 2 with
        | none => .error st
        | some a2 => .ok { st with index := jsNumber (jsSubstr a2 6) }
  else
    .ok st

/-- The `forEach` loop over the lines: an exception thrown in an
iteration aborts the loop; the `catch` of the source swallows it, leaving
the locals at their values from the throw point.  The Boolean records
whether an exception was caught (the source then emits a low-severity
diagnostic). -/
def runLines : ParsedEvent → List String → ParsedEvent × Bool
  | st, [] => (st, false)
  | st, l :: ls =>
    match processLine st l with
    | .ok st' => runLines st' ls
    | .error st' => (st', true)

/-- `parseEventData` with its caught-exception flag: split the buffer on
newlines, run the `forEach`, return the locals. -/
def parseEventDataAux (data : String) : ParsedEvent × Bool :=
  runLines sentinelEvent (jsSplit '\n' data)

/-- `parseEventData` (dahua.ts 171-208): the record the function
returns. -/
def parseEventData (data : String) : ParsedEvent :=
  (parseEventDataAux data).1

/-- `eventType` as extracted from a qualifying line:
`alarm[0].substr(5)`. -/
def lineEventType (l : String) : String :=
  jsSubstr (((jsSplit ';' l).get? 0).getD "") 5

/-- `action` as extracted from a qualifying line: `alarm[1].substr(7)`. -/
def lineAction (l : String) : String :=
  jsSubstr (((jsSplit ';' l).get? 1).getD "") 7

/-- `index` as extracted from a qualifying line:
`Number(alarm[2].substr(6))`. -/
def lineIndex (l : String) : JSNumber :=
  jsNumber (jsSubstr (((jsSplit ';' l).get? 2).getD "") 6)

/-- A line qualifies as a candidate record when it contains `;`. -/
def lineQualifies (l : String) : Bool :=
  jsIncludes ';' l

example : parseEventData "Code=VideoMotion;action=Start;index=0" =
    { action := "Start", index := .int 0, eventType := "VideoMotion" } := by decide

example : parseEventDataAux "Code=VideoMotion;action=Start" =
    ({ action := "Start", index := .int (-999), eventType := "VideoMotion" }, true) := by decide

example : parseEventData "myboundary\nContent-Type: text/plain" = sentinelEvent := by decide

/-! ## Auth Challenge Solver (dahua.ts lines 113-143)

The digest computation is parameterised by the hash
`md5 : String → String`; the source applies Node's MD5 to exactly the
concatenations embedded below, and every statement holds for the actual
MD5 instance of the parameter. -/

/-- State machine of the split on the regex matching a comma together
with the greedy whitespace runs around it (`.split(/\s*,\s*/)` on the
`WWW-Authenticate` value, dahua.ts line 122).  `skipws` is true directly
after a comma while the match is still consuming whitespace; `tok` holds
the current fragment reversed. -/
def splitCommaWSAux : Bool → List Char → List Char → List (List Char)
  | _, tok, [] => [tok.reverse]
  | skipws, tok, c :: cs =>
    if skipws && isJsSpace c then splitCommaWSAux true tok cs
    else if c = ',' then (dropJsSpace tok).reverse :: splitCommaWSAux true [] cs
    else splitCommaWSAux false (c :: tok) cs

/-- `header.split(/\s*,\s*/)`: split on commas, eliminating whitespace
before and after each comma (but not at the string ends, which the regex
cannot reach without a comma). -/
def jsSplitCommaWS (s : String) : List String :=
  (splitCommaWSAux false [] s.data).map String.mk

/-- `authDetails` (dahua.ts line 122): the challenge header split on
comma-with-whitespace, each part split on `=`. -/
def authDetailsOf (wwwAuth : String) : List (List String) :=
  (jsSplitCommaWS wwwAuth).map (jsSplit '=')

/-- Extraction of `realm` and `nonce` (dahua.ts lines 128-129):
`authDetails[0][1]` and `authDetails[2][1]`, quotes removed.  A missing
entry is JS `undefined`, whose `.replace` throws; the `Option` failure
is that exception (caught at line 145). -/
def parseWwwAuth (wwwAuth : String) : Option (String × String) := do
  let realmRaw ← (authDetailsOf wwwAuth).get? 0 >>= fun p => p.get? 1
  let nonceRaw ← (authDetailsOf wwwAuth).get? 2 >>= fun p => p.get? 1
  pure (stripQuotes realmRaw, stripQuotes nonceRaw)

/-- `nonceCount` (dahua.ts line 125): `('00000000' + count).slice(-8)`. -/
def ncStr (count : Nat) : String :=
  jsSliceLast8 ("00000000" ++ toString count)

/-- The Authorization header value template (dahua.ts lines 137-139),
literal for literal. -/
def digestHeaderValue (user realm nonce uri response nc cnonce : String) : String :=
  "Digest username=\"" ++ user ++ "\",realm=\"" ++ realm ++
  "\",nonce=\"" ++ nonce ++ "\",uri=\"" ++ uri ++ "\",qop=\"auth\",algorithm=\"MD5\"," ++
  "response=\"" ++ response ++ "\",nc=\"" ++ nc ++ "\",cnonce=\"" ++ cnonce ++ "\""

/-- The whole `try` block of the 401 branch (dahua.ts lines 122-143):
parse the challenge, pre-increment the counter, build `nonceCount`,
compute `HA1`, `HA2`, `response` and the Authorization header value.
`cnonce` — 24 random bytes hex-encoded in the source — is passed in as
explicit nondeterminism.  `none` is the caught exception of an
unparsable challenge. -/
def solveAuthChallenge (md5 : String → String) (user pass uri wwwAuth : String)
    (count : Nat) (cnonce : String) : Option (String × Nat) :=
  let count' := count + 1
  let nonceCount := ncStr count'
  match parseWwwAuth wwwAuth with
  | none => none
  | some (realm, nonce) =>
    let HA1 := md5 (user ++ ":" ++ realm ++ ":" ++ pass)
    let HA2 := md5 ("GET:" ++ uri)
    let response := md5 (HA1 ++ ":" ++ nonce ++ ":" ++ nonceCount ++ ":" ++ cnonce ++ ":auth:" ++ HA2)
    some (digestHeaderValue user realm nonce uri response nonceCount cnonce, count')

/-! ### Reference definitions, following the specification's words -/

/-- Modelled from the spec: `HA1 = MD5(username:realm:password)`. -/
def specHA1 (md5 : String → String) (user realm pass : String) : String :=
  md5 (user ++ ":" ++ realm ++ ":" ++ pass)

/-- Modelled from the spec: `HA2 = MD5(method:requestURI)`. -/
def specHA2 (md5 : String → String) (method uri : String) : String :=
  md5 (method ++ ":" ++ uri)

/-- Modelled from the spec: the reference MD5-Digest response
`MD5(HA1:nonce:nc:cnonce:auth:HA2)` for quality of protection `auth`
and method `GET`. -/
def specDigestResponse (md5 : String → String)
    (user realm pass nonce nc cnonce uri : String) : String :=
  md5 (specHA1 md5 user realm pass ++ ":" ++ nonce ++ ":" ++ nc ++ ":" ++ cnonce
    ++ ":" ++ "auth" ++ ":" ++ specHA2 md5 "GET" uri)

/-- Modelled from the spec: the zero-padded 8-digit decimal
representation of a counter (a number of more than eight digits keeps
all its digits, as with a minimum-width pad). -/
def specNc (n : Nat) : String :=
  String.mk (List.replicate (8 - (toString n).length) '0') ++ toString n

example : specNc 1 = "00000001" := by decide

example : ncStr 1 = "00000001" := by decide

example : parseWwwAuth "Digest realm=\"Login to X\",qop=\"auth\",nonce=\"abc123\",opaque=\"xyz\"" =
    some ("Login to X", "abc123") := by decide

/-! ## Connection engine (`connect`, `reconnect`, stream handlers) -/

/-- The fixed reconnect delay `RECONNECT_INTERNAL_MS` (dahua.ts
line 11). -/
def RECONNECT_INTERNAL_MS : Nat := 10000

/-- An alarm payload as published on the event channel (type
`DahuaAlarm`, dahua.ts lines 220-225). -/
structure DahuaAlarm where
  eventType : String
  action : String
  index : JSNumber
  host : String
deriving DecidableEq, Repr

/-- An error payload (type `DahuaError`, dahua.ts lines 215-218). -/
structure DahuaError where
  error : String
  errorDetails : String
deriving DecidableEq, Repr

/-- The named signals the engine emits on its `EventEmitter`. -/
inductive Signal where
  | alarm (a : DahuaAlarm)
  | error (e : DahuaError)
  | debug (msg : String)
  | reconnecting (msg : String)
deriving DecidableEq, Repr

/-- The mutable `HEADERS` object: `Accept` set at construction,
`authorization` absent until a digest challenge is solved (dahua.ts
lines 9 and 137). -/
structure RequestHeaders where
  accept : String
  authorization : Option String
deriving DecidableEq, Repr

/-- The `axiosRequestConfig` fields the engine reads or writes
(dahua.ts lines 61-69): request URL, basic credentials, headers. -/
structure RequestConfig where
  url : String
  username : String
  password : String
  headers : RequestHeaders
deriving DecidableEq, Repr

/-- What the engine does after handling a failure or stream signal:
either call `connect` again at once with a configuration and counter, or
arm a `setTimeout` timer that will call `connect` with a configuration
and counter after the given delay.  A timer is data here: its delay
parameter is the `setTimeout` argument, and the runtime fires it no
earlier than that many milliseconds later. -/
inductive NextStep where
  | retryNow (cfg : RequestConfig) (count : Nat)
  | timerConnect (delayMs : Nat) (cfg : RequestConfig) (count : Nat)
deriving DecidableEq, Repr

/-- `eventsWatchUri` (dahua.ts line 34). -/
def eventsWatchUri (events : List String) : String :=
  "/cgi-bin/eventManager.cgi?action=attach&codes=[" ++ joinComma events ++ "]"

/-- The headers object as built in the constructor (dahua.ts line 9). -/
def initialHeaders : RequestHeaders :=
  { accept := "multipart/x-mixed-replace", authorization := none }

/-- The request configuration built by the constructor (dahua.ts
lines 60-69). -/
def initialConfig (host user pass : String) (useHttp : Bool) (events : List String) :
    RequestConfig :=
  { url := (if useHttp then "http" else "https") ++ "://" ++ host ++ eventsWatchUri events,
    username := user,
    password := pass,
    headers := initialHeaders }

/-- `reconnect` (dahua.ts lines 164-169): emit one reconnecting signal
naming the target and delay, then arm one timer that calls
`connect(axiosRequestConfig, 0)` after `reconnection_interval_ms`. -/
def reconnect (host : String) (cfg : RequestConfig) (delayMs : Nat) :
    List Signal × NextStep :=
  ([.reconnecting ("Reconnecting to " ++ host ++ " in " ++ toString (delayMs / 1000) ++ "s.")],
   .timerConnect delayMs cfg 0)

/-- Emit one error signal, then run `reconnect` with the fixed delay:
the shared tail of every non-retrying branch of the `catch` (dahua.ts
lines 158-159). -/
def emitErrorAndReconnect (host : String) (cfg : RequestConfig) (e : DahuaError) :
    List Signal × NextStep :=
  let rc := reconnect host cfg RECONNECT_INTERNAL_MS
  (Signal.error e :: rc.1, rc.2)

/-- JS truthiness of `err.response.headers['www-authenticate']`: present
and non-empty. -/
def jsTruthy : Option String → Bool
  | none => false
  | some s => !(s == "")

/-- The model of an `AxiosError`'s fields the `catch` inspects
(dahua.ts lines 105-156): the optional response (status,
`WWW-Authenticate` header, status message of the body), whether a
request object exists, and the error message. -/
structure ErrResponse where
  status : Nat
  wwwAuthenticate : Option String
  statusMessage : String
deriving DecidableEq, Repr

/-- See `ErrResponse`. -/
structure AxiosErr where
  response : Option ErrResponse
  hasRequest : Bool
  message : String
deriving DecidableEq, Repr

/-- The whole `catch` handler of `connect` (dahua.ts lines 105-160).
A 401 response with a truthy `WWW-Authenticate` header whose challenge
the solver can parse stores the computed header value in the shared
headers object, attaches it to the same request configuration and
retries at once with the incremented counter, emitting only a debug
signal; every other outcome appends its detail text to the error value,
emits it, and schedules the delayed reconnect.  The digest-failure
branch appends the caught exception's text after the fixed prefix in
the source; the exception text itself is immaterial and elided. -/
def handleConnectError (md5 : String → String) (cnonce : String) (host uri : String)
    (cfg : RequestConfig) (count : Nat) (err : AxiosErr) : List Signal × NextStep :=
  let baseError : DahuaError :=
    { error := "Error received from host: " ++ host, errorDetails := "Error Details:" }
  match err.response with
  | some r =>
    if r.status == 401 && jsTruthy r.wwwAuthenticate then
      match solveAuthChallenge md5 cfg.username cfg.password uri
          (r.wwwAuthenticate.getD "") count cnonce with
      | some (hdr, count') =>
        let cfg' := { cfg with headers := { cfg.headers with authorization := some hdr } }
        ([.debug ("401 received and www-authenticate headers, sending digest auth. Count: "
            ++ toString count')],
         .retryNow cfg' count')
      | none =>
        emitErrorAndReconnect host cfg
          { baseError with errorDetails := baseError.errorDetails
              ++ " Error when building digest auth headers, please open an issue with this log: " }
    else
      emitErrorAndReconnect host cfg
        { baseError with errorDetails := baseError.errorDetails
            ++ " Status Code: " ++ toString r.status ++ " Response: " ++ r.statusMessage }
  | none =>
    if err.hasRequest then
      emitErrorAndReconnect host cfg
        { baseError with errorDetails := baseError.errorDetails
            ++ " Didn't get a response from the NVR - " ++ err.message }
    else
      emitErrorAndReconnect host cfg
        { baseError with errorDetails := baseError.errorDetails ++ " " ++ err.message }

/-- The `data` handler of the stream (dahua.ts lines 84-89): one debug
signal with the raw chunk, the diagnostic of a swallowed parse
exception when one occurred, then exactly one alarm built from the
parsed record and the owning target's host. -/
def onStreamData (host : String) (data : String) : List Signal :=
  let pe := parseEventDataAux data
  [Signal.debug ("Response recieved on host: " ++ host ++ ": " ++ data)]
    ++ (if pe.2 then [Signal.debug ("Could not parse event data: " ++ data)] else [])
    ++ [Signal.alarm
        { action := pe.1.action, index := pe.1.index, eventType := pe.1.eventType, host := host }]

/-- The `end` handler of the stream (dahua.ts lines 100-103): a debug
signal, then `reconnect` with the fixed delay. -/
def onStreamEnd (host : String) (cfg : RequestConfig) : List Signal × NextStep :=
  let rc := reconnect host cfg RECONNECT_INTERNAL_MS
  (Signal.debug ("Socket connection ended on host: " ++ host) :: rc.1, rc.2)

/-- The `error` handler of the stream (dahua.ts lines 95-98): a debug
signal with the error payload, then `reconnect` with the fixed delay. -/
def onStreamError (host : String) (errText : String) (cfg : RequestConfig) :
    List Signal × NextStep :=
  let rc := reconnect host cfg RECONNECT_INTERNAL_MS
  (Signal.debug ("Socket connection errored on host: " ++ host ++ ", error received: " ++ errText)
     :: rc.1, rc.2)

/-- The alarm payloads among a signal list, in emission order. -/
def alarmsOf (l : List Signal) : List DahuaAlarm :=
  l.filterMap fun s => match s with | .alarm a => some a | _ => none

/-- Number of error signals in a list. -/
def countErrors (l : List Signal) : Nat :=
  l.countP fun s => match s with | .error _ => true | _ => false

/-- Number of reconnecting signals in a list. -/
def countReconnecting (l : List Signal) : Nat :=
  l.countP fun s => match s with | .reconnecting _ => true | _ => false

/-- Bool discriminator: is this JS number an integer (not NaN)? -/
def JSNumber.isInt : JSNumber → Bool
  | .int _ => true
  | .nan => false

/-! ## Helper lemmas about the parser -/

/-- A qualifying line with at least three `;`-segments is parsed without
an exception, and the three locals are exactly the line's extracted
fields, independent of the incoming state. -/
theorem processLine_full (st : ParsedEvent) (l : String)
    (hq : lineQualifies l = true) (h3 : 3 ≤ (jsSplit ';' l).length) :
    processLine st l =
      .ok { action := lineAction l, index := lineIndex l, eventType := lineEventType l } := by
  have h0 : (jsSplit ';' l).get? 0 = some ((jsSplit ';' l).get ⟨0, by omega⟩) :=
    List.get?_eq_get (by omega)
  have h1 : (jsSplit ';' l).get? 1 = some ((jsSplit ';' l).get ⟨1, by omega⟩) :=
    List.get?_eq_get (by omega)
  have h2 : (jsSplit ';' l).get? 2 = some ((jsSplit ';' l).get ⟨2, by omega⟩) :=
    List.get?_eq_get (by omega)
  unfold processLine
  rw [lineQualifies] at hq
  simp only [hq, if_true, h0, h1, h2]
  unfold lineAction lineIndex lineEventType
  rw [h0, h1, h2]
  rfl

/-- A non-qualifying line leaves the locals untouched. -/
theorem processLine_skip (st : ParsedEvent) (l : String)
    (hq : lineQualifies l = false) : processLine st l = .ok st := by
  unfold processLine
  rw [lineQualifies] at hq
  simp [hq]

/-- When every qualifying line has at least three segments, the loop
never throws and the result is the extraction of the last qualifying
line (or the incoming state when no line qualifies). -/
theorem runLines_all_full (lines : List String) (st : ParsedEvent)
    (hfull : ∀ l ∈ lines, lineQualifies l = true → 3 ≤ (jsSplit ';' l).length) :
    runLines st lines =
      ((match (lines.filter lineQualifies).getLast? with
        | none => st
        | some l => { action := lineAction l, index := lineIndex l, eventType := lineEventType l }),
       false) := by
  induction lines generalizing st with
  | nil => rfl
  | cons l ls ih =>
    by_cases hq : lineQualifies l = true
    · have h3 := hfull l (List.mem_cons_self l ls) hq
      have hstep : runLines st (l :: ls) =
          runLines { action := lineAction l, index := lineIndex l, eventType := lineEventType l } ls := by
        rw [runLines, processLine_full st l hq h3]
      rw [hstep, ih _ (fun x hx => hfull x (List.mem_cons_of_mem l hx))]
      rw [List.filter_cons_of_pos hq]
      cases hfl : ls.filter lineQualifies with
      | nil => simp [hfl]
      | cons m ms =>
        rw [List.getLast?_cons_cons]
        cases hml : (m :: ms).getLast? with
        | none => exact absurd (List.getLast?_eq_none_iff.mp hml) (List.cons_ne_nil m ms)
        | some x => rfl
    · have hq' : lineQualifies l = false := by
        cases h : lineQualifies l
        · rfl
        · exact absurd h hq
      have hstep : runLines st (l :: ls) = runLines st ls := by
        rw [runLines, processLine_skip st l hq']
      rw [hstep, ih _ (fun x hx => hfull x (List.mem_cons_of_mem l hx))]
      rw [List.filter_cons_of_neg (by simp [hq'])]

/-- Every line that qualifies but throws leaves `index` untouched, and
in general every local of the loop's result is either the incoming value
or the extraction from some qualifying line of the input. -/
theorem runLines_origin (lines : List String) (st : ParsedEvent) :
    ((runLines st lines).1.eventType = st.eventType ∨
      ∃ l ∈ lines, lineQualifies l = true ∧ (runLines st lines).1.eventType = lineEventType l) ∧
    ((runLines st lines).1.action = st.action ∨
      ∃ l ∈ lines, lineQualifies l = true ∧ (runLines st lines).1.action = lineAction l) ∧
    ((runLines st lines).1.index = st.index ∨
      ∃ l ∈ lines, lineQualifies l = true ∧ (runLines st lines).1.index = lineIndex l) := by
  induction lines generalizing st with
  | nil => exact ⟨Or.inl rfl, Or.inl rfl, Or.inl rfl⟩
  | cons l ls ih =>
    by_cases hq : lineQualifies l = true
    · rw [runLines]
      unfold processLine
      rw [lineQualifies] at hq
      simp only [hq, if_true]
      cases h0 : (jsSplit ';' l).get? 0 with
      | none => exact ⟨Or.inl rfl, Or.inl rfl, Or.inl rfl⟩
      | some a0 =>
        have he : jsSubstr a0 5 = lineEventType l := by rw [lineEventType, h0]; rfl
        cases h1 : (jsSplit ';' l).get? 1 with
        | none =>
          refine ⟨Or.inr ⟨l, List.mem_cons_self l ls, hq, ?_⟩, Or.inl rfl, Or.inl rfl⟩
          simpa using he
        | some a1 =>
          have ha : jsSubstr a1 7 = lineAction l := by rw [lineAction, h1]; rfl
          cases h2 : (jsSplit ';' l).get? 2 with
          | none =>
            refine ⟨Or.inr ⟨l, List.mem_cons_self l ls, hq, ?_⟩,
                    Or.inr ⟨l, List.mem_cons_self l ls, hq, ?_⟩, Or.inl rfl⟩
            · simpa using he
            · simpa using ha
          | some a2 =>
            have hi : jsNumber (jsSubstr a2 6) = lineIndex l := by rw [lineIndex, h2]; rfl
            obtain ⟨ihe, iha, ihi⟩ := ih
              { st with eventType := jsSubstr a0 5, action := jsSubstr a1 7,
                        index := jsNumber (jsSubstr a2 6) }
            refine ⟨?_, ?_, ?_⟩
            · rcases ihe with h | ⟨x, hx, hqx, hex⟩
              · exact Or.inr ⟨l, List.mem_cons_self l ls, hq, by rw [h]; simpa using he⟩
              · exact Or.inr ⟨x, List.mem_cons_of_mem l hx, hqx, hex⟩
            · rcases iha with h | ⟨x, hx, hqx, hex⟩
              · exact Or.inr ⟨l, List.mem_cons_self l ls, hq, by rw [h]; simpa using ha⟩
              · exact Or.inr ⟨x, List.mem_cons_of_mem l hx, hqx, hex⟩
            · rcases ihi with h | ⟨x, hx, hqx, hex⟩
              · exact Or.inr ⟨l, List.mem_cons_self l ls, hq, by rw [h]; simpa using hi⟩
              · exact Or.inr ⟨x, List.mem_cons_of_mem l hx, hqx, hex⟩
    · have hq' : lineQualifies l = false := by
        cases h : lineQualifies l
        · rfl
        · exact absurd h hq
      rw [runLines, processLine_skip st l hq']
      obtain ⟨ihe, iha, ihi⟩ := ih st
      refine ⟨?_, ?_, ?_⟩
      · rcases ihe with h | ⟨x, hx, hqx, hex⟩
        · exact Or.inl h
        · exact Or.inr ⟨x, List.mem_cons_of_mem l hx, hqx, hex⟩
      · rcases iha with h | ⟨x, hx, hqx, hex⟩
        · exact Or.inl h
        · exact Or.inr ⟨x, List.mem_cons_of_mem l hx, hqx, hex⟩
      · rcases ihi with h | ⟨x, hx, hqx, hex⟩
        · exact Or.inl h
        · exact Or.inr ⟨x, List.mem_cons_of_mem l hx, hqx, hex⟩

/-- With no qualifying line, the loop returns the incoming state and no
exception occurs. -/
theorem runLines_no_qualifying (lines : List String) (st : ParsedEvent)
    (h : ∀ l ∈ lines, lineQualifies l = false) : runLines st lines = (st, false) := by
  induction lines with
  | nil => rfl
  | cons l ls ih =>
    rw [runLines, processLine_skip st l (h l (List.mem_cons_self l ls))]
    exact ih fun x hx => h x (List.mem_cons_of_mem l hx)

/-- The alarms a data chunk publishes: always exactly the one built from
the parsed record and the host. -/
theorem alarmsOf_onStreamData (host data : String) :
    alarmsOf (onStreamData host data) =
      [{ action := (parseEventData data).action, index := (parseEventData data).index,
         eventType := (parseEventData data).eventType, host := host }] := by
  unfold alarmsOf onStreamData parseEventData
  cases (parseEventDataAux data).2 <;> simp [List.filterMap_cons]

/-! ## Claims about the Event Record Parser -/

/-- C3, counterexample.  The claim says that whenever a parsing
exception occurs the returned record is exactly the sentinel
`action="", index=-999, eventType=""`.  On the buffer
`"Code=VideoMotion;action=Start"` the third `;`-segment is missing, so
`alarm[2].substr` throws — the exception flag is true — yet the
already-assigned `eventType="VideoMotion"` and `action="Start"` survive
in the returned record, which therefore differs from the sentinel. -/
theorem c3_exception_partial_fields_counterexample :
    parseEventDataAux "Code=VideoMotion;action=Start" =
      ({ action := "Start", index := JSNumber.int (-999), eventType := "VideoMotion" }, true) ∧
    (({ action := "Start", index := JSNumber.int (-999), eventType := "VideoMotion" } : ParsedEvent)
      == sentinelEvent) = false := by
  constructor
  · decide
  · decide

/-- C3, amended.  For every input buffer `parseEventData` returns
without raising (it is total by construction, the `catch` swallowing
every exception); on an internal exception the fields assigned before
the throw survive, so the guarantee is weaker than the sentinel: every
returned field is either its sentinel initial value (`""`, `-999`, `""`)
or the value extracted from some `;`-containing line of the buffer. -/
theorem c3_exception_amended (data : String) :
    ((parseEventData data).eventType = "" ∨
      ∃ l ∈ jsSplit '\n' data, lineQualifies l = true ∧
        (parseEventData data).eventType = lineEventType l) ∧
    ((parseEventData data).action = "" ∨
      ∃ l ∈ jsSplit '\n' data, lineQualifies l = true ∧
        (parseEventData data).action = lineAction l) ∧
    ((parseEventData data).index = JSNumber.int (-999) ∨
      ∃ l ∈ jsSplit '\n' data, lineQualifies l = true ∧
        (parseEventData data).index = lineIndex l) := by
  have h := runLines_origin (jsSplit '\n' data) sentinelEvent
  exact h

/-- C4, counterexample.  The claim says every buffer with two or more
qualifying lines returns exactly the last qualifying line's fields.  In
`"A;b\nCode=X;action=Start;index=1"` both lines qualify, but the first
one throws (its third `;`-segment is missing), aborting the `forEach`
before the second line is ever processed: the result is the sentinel,
not the last line's fields `("Start", 1, "X")`. -/
theorem c4_last_record_counterexample :
    parseEventData "A;b\nCode=X;action=Start;index=1" = sentinelEvent ∧
    (jsSplit '\n' "A;b\nCode=X;action=Start;index=1").countP lineQualifies = 2 ∧
    lineEventType "Code=X;action=Start;index=1" = "X" ∧
    lineAction "Code=X;action=Start;index=1" = "Start" ∧
    lineIndex "Code=X;action=Start;index=1" = JSNumber.int 1 ∧
    (sentinelEvent ==
      ({ action := "Start", index := JSNumber.int 1, eventType := "X" } : ParsedEvent)) = false := by
  refine ⟨by decide, by decide, by decide, by decide, by decide, by decide⟩

/-- C4, amended.  When every qualifying line of the buffer splits into
at least three `;`-segments (so no parsing exception occurs), a buffer
with two or more qualifying lines yields exactly the `eventType`,
`action` and `index` extracted from the last qualifying line; earlier
qualifying lines' fields are overwritten. -/
theorem c4_last_record_amended (data : String) (lastQ : String)
    (hfull : ∀ l ∈ jsSplit '\n' data, lineQualifies l = true → 3 ≤ (jsSplit ';' l).length)
    (_htwo : 2 ≤ ((jsSplit '\n' data).filter lineQualifies).length)
    (hlast : ((jsSplit '\n' data).filter lineQualifies).getLast? = some lastQ) :
    parseEventData data =
      { action := lineAction lastQ, index := lineIndex lastQ,
        eventType := lineEventType lastQ } := by
  unfold parseEventData parseEventDataAux
  rw [runLines_all_full _ _ hfull, hlast]

/-- C4, witness for the amended theorem at a concrete two-line buffer. -/
theorem c4_last_record_amended_witness :
    parseEventData "Code=A;action=Start;index=1\nCode=B;action=Stop;index=2" =
      { action := "Stop", index := JSNumber.int 2, eventType := "B" } := by
  have h := c4_last_record_amended
    "Code=A;action=Start;index=1\nCode=B;action=Stop;index=2"
    "Code=B;action=Stop;index=2" (by decide) (by decide) (by decide)
  rw [h]
  decide

/-- C8.  The target host receiving the single raw line
`Code=VideoMotion;action=Start;index=0` publishes exactly one alarm
signal, with `eventType="VideoMotion"` (5-character `Code=` prefix
skipped), `action="Start"` (7-character prefix skipped),
`index=0` (6-character prefix skipped and converted to a number), and
the owning target's host. -/
theorem c8_videomotion_end_to_end :
    alarmsOf (onStreamData "10.0.0.5" "Code=VideoMotion;action=Start;index=0") =
      [{ eventType := "VideoMotion", action := "Start", index := JSNumber.int 0,
         host := "10.0.0.5" }] := by
  decide

/-- C9.  Every data chunk received on the stream produces exactly one
alarm signal; a chunk with no qualifying line (boundary markers,
`Content-Type`/`Content-Length` lines, blank buffers) publishes the
sentinel fields `action=""`, `index=-999`, `eventType=""` together with
the target's host. -/
theorem c9_one_alarm_per_chunk (host data : String) :
    (alarmsOf (onStreamData host data)).length = 1 ∧
    ((∀ l ∈ jsSplit '\n' data, lineQualifies l = false) →
      alarmsOf (onStreamData host data) =
        [{ eventType := "", action := "", index := JSNumber.int (-999), host := host }]) := by
  constructor
  · rw [alarmsOf_onStreamData]
    rfl
  · intro h
    rw [alarmsOf_onStreamData]
    unfold parseEventData parseEventDataAux
    rw [runLines_no_qualifying _ _ h]
    rfl

/-- C9, witness: a pure boundary/header chunk of the multipart format. -/
theorem c9_one_alarm_per_chunk_witness :
    (alarmsOf (onStreamData "10.0.0.5" "myboundary\nContent-Type: text/plain")).length = 1 ∧
    alarmsOf (onStreamData "10.0.0.5" "myboundary\nContent-Type: text/plain") =
      [{ eventType := "", action := "", index := JSNumber.int (-999), host := "10.0.0.5" }] :=
  ⟨(c9_one_alarm_per_chunk "10.0.0.5" "myboundary\nContent-Type: text/plain").1,
   (c9_one_alarm_per_chunk "10.0.0.5" "myboundary\nContent-Type: text/plain").2 (by decide)⟩

/-! ## Helper lemmas about the digest header -/

/-- Bool test: `n` is an initial segment of `l`. -/
def isPrefixOfB : List Char → List Char → Bool
  | [], _ => true
  | _ :: _, [] => false
  | a :: as, b :: bs => a == b && isPrefixOfB as bs

/-- Bool test: the character list `n` occurs contiguously inside `l`. -/
def containsSub (n : List Char) : List Char → Bool
  | [] => n.isEmpty
  | c :: cs => isPrefixOfB n (c :: cs) || containsSub n cs

/-- `hdr` contains the quoted parameter `key="val"` as a contiguous
substring. -/
def embedsPair (hdr key val : String) : Prop :=
  ∃ p q, hdr.data = p ++ (key ++ "=\"" ++ val ++ "\"").data ++ q

theorem dhv_embeds_username (u r no uri resp nc cn : String) :
    embedsPair (digestHeaderValue u r no uri resp nc cn) "username" u := by
  refine ⟨"Digest ".data,
    ",realm=\"".data ++ r.data ++ "\",nonce=\"".data ++ no.data ++ "\",uri=\"".data ++ uri.data
      ++ "\",qop=\"auth\",algorithm=\"MD5\",response=\"".data ++ resp.data ++ "\",nc=\"".data
      ++ nc.data ++ "\",cnonce=\"".data ++ cn.data ++ "\"".data, ?_⟩
  simp only [digestHeaderValue, String.data_append, List.append_assoc]
  rfl

theorem dhv_embeds_realm (u r no uri resp nc cn : String) :
    embedsPair (digestHeaderValue u r no uri resp nc cn) "realm" r := by
  refine ⟨"Digest username=\"".data ++ u.data ++ "\",".data,
    ",nonce=\"".data ++ no.data ++ "\",uri=\"".data ++ uri.data
      ++ "\",qop=\"auth\",algorithm=\"MD5\",response=\"".data ++ resp.data ++ "\",nc=\"".data
      ++ nc.data ++ "\",cnonce=\"".data ++ cn.data ++ "\"".data, ?_⟩
  simp only [digestHeaderValue, String.data_append, List.append_assoc]
  rfl

theorem dhv_embeds_nonce (u r no uri resp nc cn : String) :
    embedsPair (digestHeaderValue u r no uri resp nc cn) "nonce" no := by
  refine ⟨"Digest username=\"".data ++ u.data ++ "\",realm=\"".data ++ r.data ++ "\",".data,
    ",uri=\"".data ++ uri.data
      ++ "\",qop=\"auth\",algorithm=\"MD5\",response=\"".data ++ resp.data ++ "\",nc=\"".data
      ++ nc.data ++ "\",cnonce=\"".data ++ cn.data ++ "\"".data, ?_⟩
  simp only [digestHeaderValue, String.data_append, List.append_assoc]
  rfl

theorem dhv_embeds_uri (u r no uri resp nc cn : String) :
    embedsPair (digestHeaderValue u r no uri resp nc cn) "uri" uri := by
  refine ⟨"Digest username=\"".data ++ u.data ++ "\",realm=\"".data ++ r.data
      ++ "\",nonce=\"".data ++ no.data ++ "\",".data,
    ",qop=\"auth\",algorithm=\"MD5\",response=\"".data ++ resp.data ++ "\",nc=\"".data
      ++ nc.data ++ "\",cnonce=\"".data ++ cn.data ++ "\"".data, ?_⟩
  simp only [digestHeaderValue, String.data_append, List.append_assoc]
  rfl

theorem dhv_embeds_qop (u r no uri resp nc cn : String) :
    embedsPair (digestHeaderValue u r no uri resp nc cn) "qop" "auth" := by
  refine ⟨"Digest username=\"".data ++ u.data ++ "\",realm=\"".data ++ r.data
      ++ "\",nonce=\"".data ++ no.data ++ "\",uri=\"".data ++ uri.data ++ "\",".data,
    ",algorithm=\"MD5\",response=\"".data ++ resp.data ++ "\",nc=\"".data
      ++ nc.data ++ "\",cnonce=\"".data ++ cn.data ++ "\"".data, ?_⟩
  simp only [digestHeaderValue, String.data_append, List.append_assoc]
  rfl

theorem dhv_embeds_algorithm (u r no uri resp nc cn : String) :
    embedsPair (digestHeaderValue u r no uri resp nc cn) "algorithm" "MD5" := by
  refine ⟨"Digest username=\"".data ++ u.data ++ "\",realm=\"".data ++ r.data
      ++ "\",nonce=\"".data ++ no.data ++ "\",uri=\"".data ++ uri.data
      ++ "\",qop=\"auth\",".data,
    ",response=\"".data ++ resp.data ++ "\",nc=\"".data
      ++ nc.data ++ "\",cnonce=\"".data ++ cn.data ++ "\"".data, ?_⟩
  simp only [digestHeaderValue, String.data_append, List.append_assoc]
  rfl

theorem dhv_embeds_response (u r no uri resp nc cn : String) :
    embedsPair (digestHeaderValue u r no uri resp nc cn) "response" resp := by
  refine ⟨"Digest username=\"".data ++ u.data ++ "\",realm=\"".data ++ r.data
      ++ "\",nonce=\"".data ++ no.data ++ "\",uri=\"".data ++ uri.data
      ++ "\",qop=\"auth\",algorithm=\"MD5\",".data,
    ",nc=\"".data ++ nc.data ++ "\",cnonce=\"".data ++ cn.data ++ "\"".data, ?_⟩
  simp only [digestHeaderValue, String.data_append, List.append_assoc]
  rfl

theorem dhv_embeds_nc (u r no uri resp nc cn : String) :
    embedsPair (digestHeaderValue u r no uri resp nc cn) "nc" nc := by
  refine ⟨"Digest username=\"".data ++ u.data ++ "\",realm=\"".data ++ r.data
      ++ "\",nonce=\"".data ++ no.data ++ "\",uri=\"".data ++ uri.data
      ++ "\",qop=\"auth\",algorithm=\"MD5\",response=\"".data ++ resp.data ++ "\",".data,
    ",cnonce=\"".data ++ cn.data ++ "\"".data, ?_⟩
  simp only [digestHeaderValue, String.data_append, List.append_assoc]
  rfl

theorem dhv_embeds_cnonce (u r no uri resp nc cn : String) :
    embedsPair (digestHeaderValue u r no uri resp nc cn) "cnonce" cn := by
  refine ⟨"Digest username=\"".data ++ u.data ++ "\",realm=\"".data ++ r.data
      ++ "\",nonce=\"".data ++ no.data ++ "\",uri=\"".data ++ uri.data
      ++ "\",qop=\"auth\",algorithm=\"MD5\",response=\"".data ++ resp.data ++ "\",nc=\"".data
      ++ nc.data ++ "\",".data,
    ([] : List Char), ?_⟩
  simp only [digestHeaderValue, String.data_append, List.append_assoc, List.append_nil]
  rfl

/-- Regrouping the colon-separated concatenation: the source writes the
literal `:auth:` where the reference formula lists `auth` as a separate
component. -/
theorem append_auth_regroup (Y Z : String) :
    Y ++ ":auth:" ++ Z = Y ++ ":" ++ "auth" ++ ":" ++ Z := by
  apply String.ext
  simp only [String.data_append, List.append_assoc]
  rfl

/-- For counters of at most eight decimal digits, the source's
`('00000000' + count).slice(-8)` equals the zero-padded 8-digit decimal
representation. -/
theorem ncStr_eq_specNc (n : Nat) (h : (toString n).length ≤ 8) :
    ncStr n = specNc n := by
  have hlen : (toString n).data.length ≤ 8 := h
  apply String.ext
  unfold ncStr jsSliceLast8 specNc
  show (("00000000" ++ toString n).data.drop (("00000000" ++ toString n).data.length - 8)) =
    (String.mk (List.replicate (8 - (toString n).length) '0') ++ toString n).data
  rw [String.data_append, String.data_append]
  show ((List.replicate 8 '0' ++ (toString n).data).drop
      ((List.replicate 8 '0' ++ (toString n).data).length - 8)) =
    List.replicate (8 - (toString n).length) '0' ++ (toString n).data
  rw [List.length_append, List.length_replicate]
  have h8 : 8 + (toString n).data.length - 8 = (toString n).data.length := by omega
  rw [h8, List.drop_append_of_le_length (by simpa using hlen), List.drop_replicate]
  rfl

/-! ## Claims about the Auth Challenge Solver -/

/-- C1.  For every challenge whose realm and nonce the engine can
extract, and every username, password and attempt count, the solver
returns exactly the header built from `HA1 = MD5(username:realm:password)`,
`HA2 = MD5(GET:requestURI)` and
`response = MD5(HA1:nonce:nc:cnonce:auth:HA2)` — the independent
reference MD5-Digest computation `specDigestResponse` for the same `nc`
and `cnonce` — and the header value embeds `username`, `realm`,
`nonce`, `uri`, `qop="auth"`, `algorithm="MD5"`, `response`, `nc` and
`cnonce` as quoted parameters. -/
theorem c1_digest_matches_reference (md5 : String → String)
    (user pass uri wa cn realm nonce : String) (n : Nat)
    (hp : parseWwwAuth wa = some (realm, nonce)) :
    solveAuthChallenge md5 user pass uri wa n cn =
      some (digestHeaderValue user realm nonce uri
              (specDigestResponse md5 user realm pass nonce (ncStr (n + 1)) cn uri)
              (ncStr (n + 1)) cn,
            n + 1) ∧
    embedsPair (digestHeaderValue user realm nonce uri
        (specDigestResponse md5 user realm pass nonce (ncStr (n + 1)) cn uri)
        (ncStr (n + 1)) cn) "username" user ∧
    embedsPair (digestHeaderValue user realm nonce uri
        (specDigestResponse md5 user realm pass nonce (ncStr (n + 1)) cn uri)
        (ncStr (n + 1)) cn) "realm" realm ∧
    embedsPair (digestHeaderValue user realm nonce uri
        (specDigestResponse md5 user realm pass nonce (ncStr (n + 1)) cn uri)
        (ncStr (n + 1)) cn) "nonce" nonce ∧
    embedsPair (digestHeaderValue user realm nonce uri
        (specDigestResponse md5 user realm pass nonce (ncStr (n + 1)) cn uri)
        (ncStr (n + 1)) cn) "uri" uri ∧
    embedsPair (digestHeaderValue user realm nonce uri
        (specDigestResponse md5 user realm pass nonce (ncStr (n + 1)) cn uri)
        (ncStr (n + 1)) cn) "qop" "auth" ∧
    embedsPair (digestHeaderValue user realm nonce uri
        (specDigestResponse md5 user realm pass nonce (ncStr (n + 1)) cn uri)
        (ncStr (n + 1)) cn) "algorithm" "MD5" ∧
    embedsPair (digestHeaderValue user realm nonce uri
        (specDigestResponse md5 user realm pass nonce (ncStr (n + 1)) cn uri)
        (ncStr (n + 1)) cn) "response"
      (specDigestResponse md5 user realm pass nonce (ncStr (n + 1)) cn uri) ∧
    embedsPair (digestHeaderValue user realm nonce uri
        (specDigestResponse md5 user realm pass nonce (ncStr (n + 1)) cn uri)
        (ncStr (n + 1)) cn) "nc" (ncStr (n + 1)) ∧
    embedsPair (digestHeaderValue user realm nonce uri
        (specDigestResponse md5 user realm pass nonce (ncStr (n + 1)) cn uri)
        (ncStr (n + 1)) cn) "cnonce" cn := by
  refine ⟨?_, dhv_embeds_username .., dhv_embeds_realm .., dhv_embeds_nonce ..,
    dhv_embeds_uri .., dhv_embeds_qop .., dhv_embeds_algorithm .., dhv_embeds_response ..,
    dhv_embeds_nc .., dhv_embeds_cnonce ..⟩
  have harg : md5 (md5 (user ++ ":" ++ realm ++ ":" ++ pass) ++ ":" ++ nonce ++ ":"
      ++ ncStr (n + 1) ++ ":" ++ cn ++ ":auth:" ++ md5 ("GET:" ++ uri)) =
      specDigestResponse md5 user realm pass nonce (ncStr (n + 1)) cn uri := by
    unfold specDigestResponse specHA1 specHA2
    rw [append_auth_regroup]
    rfl
  unfold solveAuthChallenge
  rw [hp]
  show some (digestHeaderValue user realm nonce uri
      (md5 (md5 (user ++ ":" ++ realm ++ ":" ++ pass) ++ ":" ++ nonce ++ ":"
        ++ ncStr (n + 1) ++ ":" ++ cn ++ ":auth:" ++ md5 ("GET:" ++ uri)))
      (ncStr (n + 1)) cn, n + 1) =
    some (digestHeaderValue user realm nonce uri
      (specDigestResponse md5 user realm pass nonce (ncStr (n + 1)) cn uri)
      (ncStr (n + 1)) cn, n + 1)
  rw [harg]

/-- C1, witness: the documented challenge shape, a constant hash
standing in for the abstract `md5` parameter, attempt count 0. -/
theorem c1_digest_matches_reference_witness :
    solveAuthChallenge (fun _ => "h") "admin" "pass" "/u"
      "Digest realm=\"Login to X\",qop=\"auth\",nonce=\"abc123\",opaque=\"xyz\"" 0 "cn" =
      some (digestHeaderValue "admin" "Login to X" "abc123" "/u"
              (specDigestResponse (fun _ => "h") "admin" "Login to X" "pass" "abc123"
                (ncStr 1) "cn" "/u")
              (ncStr 1) "cn",
            1) :=
  (c1_digest_matches_reference (fun _ => "h") "admin" "pass" "/u"
    "Digest realm=\"Login to X\",qop=\"auth\",nonce=\"abc123\",opaque=\"xyz\"" "cn"
    "Login to X" "abc123" 0 (by decide)).1

/-- C5, counterexample.  The claim says the emitted `nc` is the
zero-padded 8-digit decimal of the attempt counter for every counter.
`('00000000' + count).slice(-8)` truncates a counter of nine or more
digits to its last eight: at counter 100000000 the source emits
`"00000000"`, not `"100000000"`, as the solver run at the preceding
counter 99999999 shows. -/
theorem c5_nc_counterexample :
    ncStr 100000000 = "00000000" ∧
    specNc 100000000 = "100000000" ∧
    (("00000000" : String) == "100000000") = false ∧
    solveAuthChallenge (fun _ => "h") "admin" "pass" "/u"
      "Digest realm=\"Login to X\",qop=\"auth\",nonce=\"abc123\",opaque=\"xyz\"" 99999999 "cn" =
      some ("Digest username=\"admin\",realm=\"Login to X\",nonce=\"abc123\",uri=\"/u\",qop=\"auth\",algorithm=\"MD5\",response=\"h\",nc=\"00000000\",cnonce=\"cn\"",
            100000000) := by
  refine ⟨by decide, by decide, by decide, by decide⟩

/-- C5, amended.  For attempt counters of at most eight decimal digits
the emitted `nc` is the zero-padded 8-digit decimal of the counter; the
counter the solver hands to the retry is exactly the incoming counter
plus 1 (so `nc` increments by exactly 1 between consecutive
authentication retries within one connection attempt), and the first
re-attempt after an initial 401 (incoming counter 0) carries
`nc="00000001"`. -/
theorem c5_nc_amended (md5 : String → String) (user pass uri wa cn : String) (n : Nat)
    (hdr : String) (count' : Nat)
    (hlen : (toString (n + 1)).length ≤ 8)
    (hsolve : solveAuthChallenge md5 user pass uri wa n cn = some (hdr, count')) :
    count' = n + 1 ∧
    ncStr (n + 1) = specNc (n + 1) ∧
    embedsPair hdr "nc" (specNc (n + 1)) ∧
    ncStr 1 = "00000001" := by
  unfold solveAuthChallenge at hsolve
  cases hp : parseWwwAuth wa with
  | none => rw [hp] at hsolve; exact absurd hsolve (by simp)
  | some rn =>
    rw [hp] at hsolve
    obtain ⟨realm, nonce⟩ := rn
    simp only [Option.some.injEq, Prod.mk.injEq] at hsolve
    obtain ⟨hhdr, hcount⟩ := hsolve
    refine ⟨hcount.symm, ncStr_eq_specNc (n + 1) hlen, ?_, by decide⟩
    rw [← hhdr, ← ncStr_eq_specNc (n + 1) hlen]
    exact dhv_embeds_nc ..

/-- C5, witness for the amended theorem: incoming counter 0, the
documented challenge, a constant hash for the `md5` parameter. -/
theorem c5_nc_amended_witness :
    1 = 0 + 1 ∧
    ncStr (0 + 1) = specNc (0 + 1) ∧
    embedsPair ("Digest username=\"admin\",realm=\"Login to X\",nonce=\"abc123\",uri=\"/u\",qop=\"auth\",algorithm=\"MD5\",response=\"h\",nc=\"00000001\",cnonce=\"cn\"")
      "nc" (specNc (0 + 1)) ∧
    ncStr 1 = "00000001" :=
  c5_nc_amended (fun _ => "h") "admin" "pass" "/u"
    "Digest realm=\"Login to X\",qop=\"auth\",nonce=\"abc123\",opaque=\"xyz\"" "cn" 0
    "Digest username=\"admin\",realm=\"Login to X\",nonce=\"abc123\",uri=\"/u\",qop=\"auth\",algorithm=\"MD5\",response=\"h\",nc=\"00000001\",cnonce=\"cn\""
    1 (by decide) (by decide)

/-! ## Claims about the connection engine -/

/-- Concrete example target configuration (host `10.0.0.5`, credentials
`admin`/`pass`, TLS transport, watching `VideoMotion`). -/
def cfgExample : RequestConfig :=
  initialConfig "10.0.0.5" "admin" "pass" false ["VideoMotion"]

/-- The response part of a 401 with the documented challenge header. -/
def resp401Example : ErrResponse :=
  { status := 401,
    wwwAuthenticate :=
      some "Digest realm=\"Login to X\",qop=\"auth\",nonce=\"abc123\",opaque=\"xyz\"",
    statusMessage := "" }

/-- A request failure: 401 carrying the documented challenge. -/
def err401Example : AxiosErr :=
  { response := some resp401Example, hasRequest := true, message := "" }

/-- A request failure with no response at all (connection refused). -/
def errRefusedExample : AxiosErr :=
  { response := none, hasRequest := true, message := "connect ECONNREFUSED" }

/-- The Authorization header the solver computes for `err401Example`
under the constant hash `fun _ => \"h\"` at incoming counter 0. -/
def hdrExample : String :=
  digestHeaderValue "admin" "Login to X" "abc123" (eventsWatchUri ["VideoMotion"])
    "h" "00000001" "cn"

/-- `cfgExample` after the solved header has been stored in the shared
headers object. -/
def cfgAuthExample : RequestConfig :=
  { cfgExample with headers := { cfgExample.headers with authorization := some hdrExample } }

/-- C2.  An immediate request failure that is a 401 carrying a truthy
`WWW-Authenticate` header whose challenge the solver can parse attaches
the computed digest header to the same request configuration,
increments the request counter by one, and retries immediately — no
delay, no error signal, no reconnecting signal, only a debug signal.
Every other failure class (non-401 status, 401 with an unparsable
challenge, no response received, request never sent) emits exactly one
error signal and schedules the delayed reconnect instead. -/
theorem c2_failure_classification (md5 : String → String) (cn host uri : String)
    (cfg : RequestConfig) (count : Nat) (err : AxiosErr) :
    (∀ r hdr count', err.response = some r → r.status = 401 →
      jsTruthy r.wwwAuthenticate = true →
      solveAuthChallenge md5 cfg.username cfg.password uri (r.wwwAuthenticate.getD "") count cn
        = some (hdr, count') →
      handleConnectError md5 cn host uri cfg count err =
        ([Signal.debug ("401 received and www-authenticate headers, sending digest auth. Count: "
            ++ toString count')],
         NextStep.retryNow
           { cfg with headers := { cfg.headers with authorization := some hdr } } count') ∧
      count' = count + 1) ∧
    ((∀ r, err.response = some r → r.status = 401 → jsTruthy r.wwwAuthenticate = true →
        solveAuthChallenge md5 cfg.username cfg.password uri (r.wwwAuthenticate.getD "") count cn
          = none) →
      countErrors (handleConnectError md5 cn host uri cfg count err).1 = 1 ∧
      countReconnecting (handleConnectError md5 cn host uri cfg count err).1 = 1 ∧
      (handleConnectError md5 cn host uri cfg count err).2 =
        NextStep.timerConnect RECONNECT_INTERNAL_MS cfg 0 ∧
      RECONNECT_INTERNAL_MS = 10000) := by
  constructor
  · intro r hdr count' hr h401 htru hsolve
    have hcount : count' = count + 1 := by
      unfold solveAuthChallenge at hsolve
      cases hp : parseWwwAuth (r.wwwAuthenticate.getD "") with
      | none => rw [hp] at hsolve; exact absurd hsolve (by simp)
      | some rn =>
        rw [hp] at hsolve
        obtain ⟨realm, nonce⟩ := rn
        simp only [Option.some.injEq, Prod.mk.injEq] at hsolve
        exact hsolve.2.symm
    refine ⟨?_, hcount⟩
    simp only [handleConnectError, hr, h401, htru, hsolve]
    simp
  · intro hnone
    cases herr : err.response with
    | none =>
      cases hreq : err.hasRequest <;>
        simp [handleConnectError, herr, hreq, emitErrorAndReconnect, reconnect,
          countErrors, countReconnecting, RECONNECT_INTERNAL_MS]
    | some r =>
      by_cases hc : (r.status == 401 && jsTruthy r.wwwAuthenticate) = true
      · have h401 : r.status = 401 := by
          have h := (Bool.and_eq_true _ _).mp hc
          simpa using h.1
        have htru : jsTruthy r.wwwAuthenticate = true := ((Bool.and_eq_true _ _).mp hc).2
        have hsolve := hnone r herr h401 htru
        simp [handleConnectError, herr, h401, htru, hsolve, emitErrorAndReconnect, reconnect,
          countErrors, countReconnecting, RECONNECT_INTERNAL_MS]
      · rw [Bool.not_eq_true] at hc
        simp [handleConnectError, herr, hc, emitErrorAndReconnect, reconnect,
          countErrors, countReconnecting, RECONNECT_INTERNAL_MS]

set_option maxRecDepth 16384 in
/-- C2, witness: the positive branch at the documented 401 challenge,
and the negative branch at a connection-refused failure. -/
theorem c2_failure_classification_witness :
    (handleConnectError (fun _ => "h") "cn" "10.0.0.5" (eventsWatchUri ["VideoMotion"])
        cfgExample 0 err401Example =
      ([Signal.debug ("401 received and www-authenticate headers, sending digest auth. Count: "
          ++ toString 1)],
       NextStep.retryNow
         { cfgExample with
             headers := { cfgExample.headers with authorization := some hdrExample } } 1) ∧
     1 = 0 + 1) ∧
    (countErrors (handleConnectError (fun _ => "h") "cn" "10.0.0.5"
        (eventsWatchUri ["VideoMotion"]) cfgExample 0 errRefusedExample).1 = 1 ∧
     countReconnecting (handleConnectError (fun _ => "h") "cn" "10.0.0.5"
        (eventsWatchUri ["VideoMotion"]) cfgExample 0 errRefusedExample).1 = 1 ∧
     (handleConnectError (fun _ => "h") "cn" "10.0.0.5"
        (eventsWatchUri ["VideoMotion"]) cfgExample 0 errRefusedExample).2 =
       NextStep.timerConnect RECONNECT_INTERNAL_MS cfgExample 0 ∧
     RECONNECT_INTERNAL_MS = 10000) :=
  ⟨(c2_failure_classification (fun _ => "h") "cn" "10.0.0.5" (eventsWatchUri ["VideoMotion"])
      cfgExample 0 err401Example).1 resp401Example hdrExample 1 rfl rfl (by decide) (by decide),
   (c2_failure_classification (fun _ => "h") "cn" "10.0.0.5" (eventsWatchUri ["VideoMotion"])
      cfgExample 0 errRefusedExample).2 (fun r2 h => Option.noConfusion h)⟩

/-- C6.  A stream that ends normally, and a stream that signals a
transport error, each emit exactly one reconnecting signal and schedule
exactly one new connection attempt, always with the same fixed
10000 ms delay (no backoff — the delay is the constant
`RECONNECT_INTERNAL_MS`, independent of how often the target failed
before) and with the request counter reset to 0.  The timer is modelled
by its delay parameter; `setTimeout` fires it no earlier than that. -/
theorem c6_stream_end_reconnect (host errText : String) (cfg : RequestConfig) :
    countReconnecting (onStreamEnd host cfg).1 = 1 ∧
    (onStreamEnd host cfg).2 = NextStep.timerConnect RECONNECT_INTERNAL_MS cfg 0 ∧
    countReconnecting (onStreamError host errText cfg).1 = 1 ∧
    (onStreamError host errText cfg).2 = NextStep.timerConnect RECONNECT_INTERNAL_MS cfg 0 ∧
    RECONNECT_INTERNAL_MS = 10000 := by
  refine ⟨?_, rfl, ?_, rfl, rfl⟩ <;>
    simp [onStreamEnd, onStreamError, reconnect, countReconnecting]

set_option maxRecDepth 16384 in
/-- C7, counterexample.  The claim says no value derived from a parsed
challenge is cached across reconnect cycles, so a fresh attempt after a
reconnect delay would carry no Authorization header from a previous
cycle.  In the code the computed header is stored in the shared
`HEADERS` object of the request configuration: after the 401 of cycle
one is solved and the retry fails with a connection-refused error, the
delayed reconnect schedules a fresh attempt (counter 0) whose
configuration still carries the cycle-one header — which literally
embeds the old challenge's nonce `abc123`. -/
theorem c7_header_cached_counterexample :
    (handleConnectError (fun _ => "h") "cn" "10.0.0.5" (eventsWatchUri ["VideoMotion"])
        cfgExample 0 err401Example).2 = NextStep.retryNow cfgAuthExample 1 ∧
    (handleConnectError (fun _ => "h") "cn" "10.0.0.5" (eventsWatchUri ["VideoMotion"])
        cfgAuthExample 1 errRefusedExample).2 =
      NextStep.timerConnect 10000 cfgAuthExample 0 ∧
    cfgAuthExample.headers.authorization = some hdrExample ∧
    cfgExample.headers.authorization = none ∧
    containsSub "nonce=\"abc123\"".data hdrExample.data = true := by
  refine ⟨by decide, by decide, by decide, by decide, by decide⟩

/-- C7, amended.  The parsed challenge is consumed once to compute the
digest, but the computed Authorization header is stored in the shared
headers object of the request configuration and survives the reconnect
delay: the fresh connection attempt scheduled after a subsequent
failure carries the configuration with the previous cycle's header (the
request counter alone resets to 0). -/
theorem c7_header_cached_amended (md5 : String → String) (cn cn2 host uri : String)
    (cfg : RequestConfig) (count : Nat) (err err2 : AxiosErr) (r : ErrResponse)
    (hdr : String) (count' : Nat)
    (hr : err.response = some r) (h401 : r.status = 401)
    (htru : jsTruthy r.wwwAuthenticate = true)
    (hsolve : solveAuthChallenge md5 cfg.username cfg.password uri (r.wwwAuthenticate.getD "")
      count cn = some (hdr, count'))
    (hnoretry : ∀ r2, err2.response = some r2 → r2.status = 401 →
      jsTruthy r2.wwwAuthenticate = true →
      solveAuthChallenge md5 cfg.username cfg.password uri (r2.wwwAuthenticate.getD "")
        count' cn2 = none) :
    (handleConnectError md5 cn host uri cfg count err).2 =
      NextStep.retryNow
        { cfg with headers := { cfg.headers with authorization := some hdr } } count' ∧
    (handleConnectError md5 cn2 host uri
        { cfg with headers := { cfg.headers with authorization := some hdr } } count' err2).2 =
      NextStep.timerConnect RECONNECT_INTERNAL_MS
        { cfg with headers := { cfg.headers with authorization := some hdr } } 0 := by
  constructor
  · simp only [handleConnectError, hr, h401, htru, hsolve]
    simp
  · cases herr2 : err2.response with
    | none =>
      cases hreq : err2.hasRequest <;>
        simp [handleConnectError, herr2, hreq, emitErrorAndReconnect, reconnect]
    | some r2 =>
      by_cases hc : (r2.status == 401 && jsTruthy r2.wwwAuthenticate) = true
      · have h401b : r2.status = 401 := by
          have h := (Bool.and_eq_true _ _).mp hc
          simpa using h.1
        have htrub : jsTruthy r2.wwwAuthenticate = true := ((Bool.and_eq_true _ _).mp hc).2
        have hs := hnoretry r2 herr2 h401b htrub
        simp [handleConnectError, herr2, h401b, htrub, hs, emitErrorAndReconnect, reconnect]
      · rw [Bool.not_eq_true] at hc
        simp [handleConnectError, herr2, hc, emitErrorAndReconnect, reconnect]

set_option maxRecDepth 16384 in
/-- C7, witness for the amended theorem: the concrete two-cycle trace
(401 with the documented challenge, then connection refused). -/
theorem c7_header_cached_amended_witness :
    (handleConnectError (fun _ => "h") "cn" "10.0.0.5" (eventsWatchUri ["VideoMotion"])
        cfgExample 0 err401Example).2 =
      NextStep.retryNow
        { cfgExample with
            headers := { cfgExample.headers with authorization := some hdrExample } } 1 ∧
    (handleConnectError (fun _ => "h") "cn2" "10.0.0.5" (eventsWatchUri ["VideoMotion"])
        { cfgExample with
            headers := { cfgExample.headers with authorization := some hdrExample } } 1
        errRefusedExample).2 =
      NextStep.timerConnect RECONNECT_INTERNAL_MS
        { cfgExample with
            headers := { cfgExample.headers with authorization := some hdrExample } } 0 :=
  c7_header_cached_amended (fun _ => "h") "cn" "cn2" "10.0.0.5" (eventsWatchUri ["VideoMotion"])
    cfgExample 0 err401Example errRefusedExample resp401Example hdrExample 1
    rfl rfl (by decide) (by decide) (fun r2 h => Option.noConfusion h)

/-- C10.  On the line `Code=X;action=Start;index=abc` the `index`
remainder `abc` is not numeric, JS `Number(...)` yields NaN — a value
that is neither a parsed integer nor the `-999` sentinel — and the NaN
index is published unchanged in the alarm signal. -/
theorem c10_nan_index_published :
    parseEventData "Code=X;action=Start;index=abc" =
      { action := "Start", index := JSNumber.nan, eventType := "X" } ∧
    JSNumber.nan.isInt = false ∧
    (JSNumber.nan == JSNumber.int (-999)) = false ∧
    alarmsOf (onStreamData "10.0.0.5" "Code=X;action=Start;index=abc") =
      [{ eventType := "X", action := "Start", index := JSNumber.nan, host := "10.0.0.5" }] := by
  refine ⟨by decide, rfl, by decide, by decide⟩

end Dahua
